import Mathlib

/-!
Formal model of `bpfjit-sys` (`src/lib.rs`), a thin Rust wrapper that
compiles a tcpdump-style filter expression to a classic BPF program via
libpcap (`pcap_open_dead` / `pcap_compile` / `pcap_geterr` / `pcap_close`)
and JIT-compiles the result via `bpfjit_generate_code`, exposing
`matches`, `clone` and `Drop`.

The two foreign libraries are modelled as an environment `ExtEnv` of pure
functions, and every wrapper operation additionally returns the list of
foreign calls it performed (a trace of `Event`s), so that ordering
properties (lock discipline, teardown order, exactly-once free) become
statements about concrete traces.
-/

namespace BpfjitSys

/-- One classic BPF instruction, `bpf_insn_t` in the source:
`code : u16`, `jt : u8`, `jf : u8`, `k : u32` (widths irrelevant to the
claims, so fields are `Nat`). -/
structure bpf_insn_t where
  code : Nat
  jt : Nat
  jf : Nat
  k : Nat
deriving Repr, DecidableEq

/-- `bpf_program_t`: instruction count plus the foreign-owned instruction
array (modelled as the list of instructions behind the pointer). -/
structure bpf_program_t where
  bf_len : Nat
  bf_insns : List bpf_insn_t
deriving Repr, DecidableEq

/-- `bpf_args_t`: the argument record passed to a JIT callable.  The
packet pointer is modelled as the byte sequence it points to; the `mem`
and `arg` pointers are modelled as raw pointer values (0 = null). -/
structure bpf_args_t where
  pkt : List Nat
  wirelen : Nat
  buflen : Nat
  mem : Nat
  arg : Nat
deriving Repr, DecidableEq

/-- A JIT-generated native callable: takes the context pointer value and
an args record, returns a `c_uint`.  `bpfjit_func_t` in the source is
`Option` of this. -/
def JitFn : Type := Nat → bpf_args_t → Nat

/-- Foreign calls performed by the wrapper, in order.  `pcapGetErr`
records whether the pcap context had already been closed at the moment
`pcap_geterr` was called. -/
inductive Event where
  | lockAcquire
  | lockRelease
  | pcapOpenDead (linktype snaplen : Nat)
  | pcapCompile (optimize netmask : Nat)
  | pcapClose
  | pcapGetErr (ctxClosed : Bool)
  | jitGenerate
  | jitFree
deriving Repr, DecidableEq

/-- Errors a constructor can return (`Box<dyn Error>` in the source,
distinguished here by provenance, carrying the source's message). -/
inductive BpfError where
  | lockError
  | nulError
  | compileError (msg : String)
  | jitError (msg : String)
deriving Repr, DecidableEq

/-- The environment of foreign behaviour: what libpcap and the bpfjit
engine do on each call.  `pcapErr` is the error string `pcap_geterr`
yields, as a function of the context parameters and of whether the
context has already been closed (after `pcap_close` the string is
garbage, hence the `Bool` argument). -/
structure ExtEnv where
  lockPoisoned : Bool
  compileRet : Nat → String → Int
  compileProg : Nat → String → bpf_program_t
  pcapErr : Nat → String → Bool → String
  jitResult : bpf_program_t → Option JitFn

/-- `CString::new(filter)` succeeds iff the string has no interior NUL. -/
def cstringOk (s : String) : Bool :=
  s.toList.all (fun c => c ≠ Char.ofNat 0)

/-- The handle: `pub struct BpfJit { prog, ctx, cb }`.  `ctx` is a
`*const bpf_ctx_t` that is always the zeroed (null) pointer, modelled as
its raw value. -/
structure BpfJit where
  prog : bpf_program_t
  ctx : Nat
  cb : Option JitFn

/-- Shared body of `BpfJit::new_ethernet` / `BpfJit::new_ip`, which are
identical in the source except for the link type (1 = LINKTYPE_ETHERNET,
12 = LINKTYPE_RAW).  Follows `src/lib.rs` lines 97-171 step by step:
zeroed result; `BIGLOCK.lock()?`; `pcap_open_dead(lt, 65535)`;
`pcap_compile(pcap, &mut result.prog, CString::new(filter)?.as_ptr(), 1,
0xffffffff)` (the `?` fires after the open, before the compile, and the
lock guard is dropped on that early return); `pcap_close(pcap)`;
`drop(lock)`; on `compiled != 0` read `pcap_geterr(pcap)` — on the
already-closed context — and fail; otherwise `bpfjit_generate_code` and
fail if it returns `None`. -/
def construct (env : ExtEnv) (linktype : Nat) (filter : String) :
    List Event × Except BpfError BpfJit :=
  if env.lockPoisoned then
    ([], Except.error BpfError.lockError)
  else if cstringOk filter then
    let compiled := env.compileRet linktype filter
    let prog := env.compileProg linktype filter
    let preTrace := [Event.lockAcquire, Event.pcapOpenDead linktype 65535,
      Event.pcapCompile 1 4294967295, Event.pcapClose, Event.lockRelease]
    if compiled ≠ 0 then
      (preTrace ++ [Event.pcapGetErr true],
       Except.error (BpfError.compileError
         ("could not compile cBPF expression: " ++ env.pcapErr linktype filter true)))
    else
      match env.jitResult prog with
      | none =>
        (preTrace ++ [Event.jitGenerate],
         Except.error (BpfError.jitError "could not JIT cBPF expression"))
      | some f =>
        (preTrace ++ [Event.jitGenerate],
         Except.ok { prog := prog, ctx := 0, cb := some f })
  else
    ([Event.lockAcquire, Event.pcapOpenDead linktype 65535, Event.lockRelease],
     Except.error BpfError.nulError)

/-- `BpfJit::new_ethernet` (src/lib.rs:97-133). -/
def new_ethernet (env : ExtEnv) (filter : String) :
    List Event × Except BpfError BpfJit :=
  construct env 1 filter

/-- `BpfJit::new_ip` (src/lib.rs:135-171). -/
def new_ip (env : ExtEnv) (filter : String) :
    List Event × Except BpfError BpfJit :=
  construct env 12 filter

/-- `BpfJit::new` (src/lib.rs:93-95): delegates to `new_ethernet`. -/
def new (env : ExtEnv) (filter : String) :
    List Event × Except BpfError BpfJit :=
  new_ethernet env filter

/-- `BpfJit::matches` (src/lib.rs:173-182): zero the args record, set
`pkt`, `wirelen`, `buflen`, then `self.cb.unwrap()(self.ctx, &mut args)
!= 0`.  The `unwrap` panic on a `None` callable is modelled as `none`. -/
def BpfJit.matchesPacket (self : BpfJit) (data : List Nat) : Option Bool :=
  match self.cb with
  | none => none
  | some f =>
    some (f self.ctx
      { pkt := data, wirelen := data.length, buflen := data.length,
        mem := 0, arg := 0 } ≠ 0)

/-- Result of `Clone::clone`, which either returns a handle or panics
(process-terminating) with a message. -/
inductive CloneResult where
  | ok (h : BpfJit)
  | panic (msg : String)

/-- `Clone for BpfJit` (src/lib.rs:208-227): zeroed result, copy
`self.prog`, re-run `bpfjit_generate_code` on it, panic if that yields
`None`. -/
def BpfJit.cloneJit (env : ExtEnv) (self : BpfJit) : List Event × CloneResult :=
  match env.jitResult self.prog with
  | none =>
    ([Event.jitGenerate], CloneResult.panic "could not JIT cBPF expression")
  | some f =>
    ([Event.jitGenerate],
     CloneResult.ok { prog := self.prog, ctx := 0, cb := some f })

/-- `Drop for BpfJit` (src/lib.rs:229-237): call `bpfjit_free_code` iff
`self.cb.is_some()`; returns the trace of foreign calls made. -/
def BpfJit.dropTrace (self : BpfJit) : List Event :=
  if self.cb.isSome then [Event.jitFree] else []

/-! ### Trace predicates used by the claims -/

/-- Scans a trace with state `(locked, released)`: the lock is never
re-acquired while held or released while free, every `pcap_compile`
happens with the lock held, every `bpfjit_generate_code` happens with the
lock not held and after it has been released at least once, and the lock
is not held at the end of the trace. -/
def lockCheck : List Event → Bool → Bool → Bool
  | [], locked, _ => !locked
  | Event.lockAcquire :: rest, false, released => lockCheck rest true released
  | Event.lockAcquire :: _, true, _ => false
  | Event.lockRelease :: rest, true, _ => lockCheck rest false true
  | Event.lockRelease :: _, false, _ => false
  | Event.pcapCompile _ _ :: rest, locked, released =>
    locked && lockCheck rest locked released
  | Event.jitGenerate :: rest, locked, released =>
    !locked && released && lockCheck rest locked released
  | _ :: rest, locked, released => lockCheck rest locked released

/-- Every `pcap_compile` in the trace is immediately followed by
`pcap_close` and then `lockRelease` (teardown right after the compile
step, then the guard is dropped, on success and failure alike). -/
def closeThenUnlockAfterCompile : List Event → Bool
  | Event.pcapCompile _ _ :: Event.pcapClose :: Event.lockRelease :: rest =>
    closeThenUnlockAfterCompile rest
  | Event.pcapCompile _ _ :: _ => false
  | _ :: rest => closeThenUnlockAfterCompile rest
  | [] => true

/-- Every `pcap_open_dead` in the trace uses the given link type and
snaplen. -/
def opensWith (lt sl : Nat) (tr : List Event) : Bool :=
  tr.all fun e =>
    match e with
    | Event.pcapOpenDead l s => l == lt && s == sl
    | _ => true

/-- Every `pcap_compile` in the trace uses `optimize = 1` and netmask
`0xffffffff`. -/
def compilesOptimized (tr : List Event) : Bool :=
  tr.all fun e =>
    match e with
    | Event.pcapCompile o nm => o == 1 && nm == 4294967295
    | _ => true

/-- Every `pcap_geterr` in the trace is made on a still-open context. -/
def getErrBeforeTeardown (tr : List Event) : Bool :=
  tr.all fun e =>
    match e with
    | Event.pcapGetErr closed => !closed
    | _ => true

/-- Every `pcap_compile` in the trace is immediately followed by
`pcap_close`. -/
def closeImmediatelyAfterCompile : List Event → Bool
  | Event.pcapCompile _ _ :: Event.pcapClose :: rest =>
    closeImmediatelyAfterCompile rest
  | Event.pcapCompile _ _ :: _ => false
  | _ :: rest => closeImmediatelyAfterCompile rest
  | [] => true

/-! ### Concrete environments and handles used as witnesses -/

/-- A callable that accepts every packet. -/
def acceptAll : JitFn := fun _ _ => 1

/-- A one-instruction match-all program (`ret 65535`). -/
def sampleProg : bpf_program_t :=
  { bf_len := 1, bf_insns := [{ code := 6, jt := 0, jf := 0, k := 65535 }] }

/-- Environment where compilation and JIT generation both succeed. -/
def envOk : ExtEnv :=
  { lockPoisoned := false
    compileRet := fun _ _ => 0
    compileProg := fun _ _ => sampleProg
    pcapErr := fun _ _ closed => if closed then "(use after free)" else "syntax error"
    jitResult := fun _ => some acceptAll }

/-- Environment where `pcap_compile` rejects every filter. -/
def envBad : ExtEnv :=
  { envOk with compileRet := fun _ _ => 1 }

/-- Environment with a poisoned `BIGLOCK`. -/
def envPoisoned : ExtEnv :=
  { envOk with lockPoisoned := true }

/-- Environment where `bpfjit_generate_code` always fails. -/
def envNoJit : ExtEnv :=
  { envOk with jitResult := fun _ => none }

/-- The handle `envOk` constructions produce. -/
def hOk : BpfJit := { prog := sampleProg, ctx := 0, cb := some acceptAll }

/-- A half-initialized handle (never produced by the constructors). -/
def hNoCb : BpfJit := { prog := sampleProg, ctx := 0, cb := none }

/-! ### Helper lemmas -/

/-- Full characterization of a successful construction: the lock was not
poisoned, the filter had no interior NUL, the compiler returned 0, the
JIT produced a callable, and the returned handle is exactly the compiled
program together with that callable over the zeroed context. -/
theorem construct_ok_iff (env : ExtEnv) (lt : Nat) (filter : String) (h : BpfJit) :
    (construct env lt filter).2 = Except.ok h ↔
      env.lockPoisoned = false ∧ cstringOk filter = true ∧
      env.compileRet lt filter = 0 ∧
      ∃ f, env.jitResult (env.compileProg lt filter) = some f ∧
        h = { prog := env.compileProg lt filter, ctx := 0, cb := some f } := by
  unfold construct
  cases hp : env.lockPoisoned with
  | true => simp [hp]
  | false =>
    cases hc : cstringOk filter with
    | false => simp [hp, hc]
    | true =>
      by_cases hr : env.compileRet lt filter = 0
      · cases hj : env.jitResult (env.compileProg lt filter) with
        | none => simp [hp, hc, hr, hj]
        | some f =>
          simp [hp, hc, hr, hj, eq_comm]
      · simp [hp, hc, hr]

/-- The event trace of a construction is one of four concrete lists,
according to how far the construction got. -/
theorem construct_trace_cases (env : ExtEnv) (lt : Nat) (filter : String) :
    (env.lockPoisoned = true ∧ (construct env lt filter).1 = []) ∨
    (env.lockPoisoned = false ∧
      ((construct env lt filter).1 =
        [Event.lockAcquire, Event.pcapOpenDead lt 65535, Event.lockRelease] ∨
       (construct env lt filter).1 =
        [Event.lockAcquire, Event.pcapOpenDead lt 65535,
         Event.pcapCompile 1 4294967295, Event.pcapClose, Event.lockRelease,
         Event.pcapGetErr true] ∨
       (construct env lt filter).1 =
        [Event.lockAcquire, Event.pcapOpenDead lt 65535,
         Event.pcapCompile 1 4294967295, Event.pcapClose, Event.lockRelease,
         Event.jitGenerate])) := by
  unfold construct
  cases hp : env.lockPoisoned with
  | true => exact Or.inl ⟨rfl, by simp [hp]⟩
  | false =>
    refine Or.inr ⟨rfl, ?_⟩
    cases hc : cstringOk filter with
    | false => simp [hp, hc]
    | true =>
      by_cases hr : env.compileRet lt filter = 0
      · cases hj : env.jitResult (env.compileProg lt filter) with
        | none => simp [hp, hc, hr, hj]
        | some f => simp [hp, hc, hr, hj]
      · simp [hp, hc, hr]

/-- A poisoned lock makes construction fail with the lock error before
any foreign call. -/
theorem construct_poisoned (env : ExtEnv) (lt : Nat) (filter : String)
    (hp : env.lockPoisoned = true) :
    construct env lt filter = ([], Except.error BpfError.lockError) := by
  unfold construct
  simp [hp]

/-- Characterization of a successful clone. -/
theorem cloneJit_ok_iff (env : ExtEnv) (self h : BpfJit) :
    (self.cloneJit env).2 = CloneResult.ok h ↔
      ∃ f, env.jitResult self.prog = some f ∧
        h = { prog := self.prog, ctx := 0, cb := some f } := by
  unfold BpfJit.cloneJit
  cases hj : env.jitResult self.prog with
  | none => simp [hj]
  | some f => simp [hj, eq_comm]

/-! ### Claim theorems -/

/-- C1: every handle exposed to a caller is fully initialized: for every
environment and filter text, `new_ethernet` and `new_ip` either return an
error or a handle holding the compiled program together with a `some`
callable, and `clone` likewise never yields a handle whose callable is
`none`. -/
theorem constructors_never_return_half_initialized (env : ExtEnv)
    (filter : String) (self : BpfJit) :
    (∀ h, (new_ethernet env filter).2 = Except.ok h →
      h.cb.isSome = true ∧ h.prog = env.compileProg 1 filter) ∧
    (∀ h, (new_ip env filter).2 = Except.ok h →
      h.cb.isSome = true ∧ h.prog = env.compileProg 12 filter) ∧
    (∀ h, (self.cloneJit env).2 = CloneResult.ok h →
      h.cb.isSome = true ∧ h.prog = self.prog) := by
  refine ⟨fun h hok => ?_, fun h hok => ?_, fun h hok => ?_⟩
  · obtain ⟨-, -, -, f, -, hh⟩ := (construct_ok_iff env 1 filter h).mp hok
    rw [hh]; exact ⟨rfl, rfl⟩
  · obtain ⟨-, -, -, f, -, hh⟩ := (construct_ok_iff env 12 filter h).mp hok
    rw [hh]; exact ⟨rfl, rfl⟩
  · obtain ⟨f, -, hh⟩ := (cloneJit_ok_iff env self h).mp hok
    rw [hh]; exact ⟨rfl, rfl⟩

/-- C1 witness: the successful Ethernet construction in `envOk` yields
`hOk`, whose callable is `some`. -/
theorem constructors_never_return_half_initialized_witness :
    hOk.cb.isSome = true ∧ hOk.prog = envOk.compileProg 1 "tcp" :=
  (constructors_never_return_half_initialized envOk "tcp" hOk).1 hOk rfl

/-- C2 (code bug): on a failing compile, the constructors read the
compiler's error string only AFTER `pcap_close` has destroyed the
throwaway context: in the trace `pcapClose` precedes `pcapGetErr`, and
the `pcapGetErr` call happens with the context already closed
(`getErrBeforeTeardown` is false), so the diagnostic that ends up in the
`compileError` message is the closed-context (dangling) string — even
though the surrounding message prefix keeps the message non-empty. -/
theorem compile_error_string_read_after_close :
    (new_ethernet envBad "not a valid filter ((").1 =
      [Event.lockAcquire, Event.pcapOpenDead 1 65535,
       Event.pcapCompile 1 4294967295, Event.pcapClose, Event.lockRelease,
       Event.pcapGetErr true] ∧
    getErrBeforeTeardown ((new_ethernet envBad "not a valid filter ((").1) = false ∧
    (new_ip envBad "not a valid filter ((").1 =
      [Event.lockAcquire, Event.pcapOpenDead 12 65535,
       Event.pcapCompile 1 4294967295, Event.pcapClose, Event.lockRelease,
       Event.pcapGetErr true] ∧
    getErrBeforeTeardown ((new_ip envBad "not a valid filter ((").1) = false ∧
    (new_ethernet envBad "not a valid filter ((").2 =
      Except.error (BpfError.compileError
        ("could not compile cBPF expression: " ++
          envBad.pcapErr 1 "not a valid filter ((" true)) ∧
    (new_ethernet envBad "not a valid filter ((").2 =
      Except.error (BpfError.compileError
        "could not compile cBPF expression: (use after free)") := by
  refine ⟨by decide, by decide, by decide, by decide, rfl, rfl⟩

/-- C3: `matches` builds the args record with the packet pointer on the
data, wire length and buffer length both the data length, and null
auxiliary-memory and user-argument pointers, invokes the stored callable
on the handle's context and that record, and yields true iff the call
returns non-zero. -/
theorem matchesPacket_args_and_nonzero (self : BpfJit) (data : List Nat)
    (f : JitFn) (hcb : self.cb = some f) :
    self.matchesPacket data =
      some (decide (f self.ctx
        { pkt := data, wirelen := data.length, buflen := data.length,
          mem := 0, arg := 0 } ≠ 0)) := by
  unfold BpfJit.matchesPacket
  rw [hcb]

/-- C3 witness at the all-accepting handle on packet `[1, 2, 3]`. -/
theorem matchesPacket_args_and_nonzero_witness :
    hOk.matchesPacket [1, 2, 3] =
      some (decide (acceptAll hOk.ctx
        { pkt := [1, 2, 3], wirelen := [1, 2, 3].length,
          buflen := [1, 2, 3].length, mem := 0, arg := 0 } ≠ 0)) :=
  matchesPacket_args_and_nonzero hOk [1, 2, 3] acceptAll rfl

/-- C4: in every construction the compile call happens with the process
lock held, the lock is released immediately after the compile step
(`pcap_compile` then `pcap_close` then unlock) on success and failure
alike, JIT generation happens only after the lock is released, and a
poisoned lock makes construction fail with the lock error. -/
theorem compile_lock_discipline (env : ExtEnv) (filter : String) :
    lockCheck ((new_ethernet env filter).1) false false = true ∧
    closeThenUnlockAfterCompile ((new_ethernet env filter).1) = true ∧
    lockCheck ((new_ip env filter).1) false false = true ∧
    closeThenUnlockAfterCompile ((new_ip env filter).1) = true ∧
    (env.lockPoisoned = true →
      (new_ethernet env filter).2 = Except.error BpfError.lockError ∧
      (new_ip env filter).2 = Except.error BpfError.lockError) := by
  refine ⟨?_, ?_, ?_, ?_, fun hp => ?_⟩
  · rcases construct_trace_cases env 1 filter with ⟨-, h⟩ | ⟨-, h | h | h⟩ <;>
      rw [new_ethernet, h] <;> decide
  · rcases construct_trace_cases env 1 filter with ⟨-, h⟩ | ⟨-, h | h | h⟩ <;>
      rw [new_ethernet, h] <;> decide
  · rcases construct_trace_cases env 12 filter with ⟨-, h⟩ | ⟨-, h | h | h⟩ <;>
      rw [new_ip, h] <;> decide
  · rcases construct_trace_cases env 12 filter with ⟨-, h⟩ | ⟨-, h | h | h⟩ <;>
      rw [new_ip, h] <;> decide
  · rw [new_ethernet, new_ip, construct_poisoned env 1 filter hp,
      construct_poisoned env 12 filter hp]
    exact ⟨rfl, rfl⟩

/-- C4 witness: lock discipline at a concrete environment, and the
poisoned-lock failure at `envPoisoned`. -/
theorem compile_lock_discipline_witness :
    (new_ethernet envPoisoned "tcp").2 = Except.error BpfError.lockError ∧
    (new_ip envPoisoned "tcp").2 = Except.error BpfError.lockError :=
  (compile_lock_discipline envPoisoned "tcp").2.2.2.2 rfl

/-- C5: `clone` always re-runs JIT generation on the stored compiled
program (its trace is exactly one `jitGenerate` and the new handle's
callable is the fresh JIT result for that program, not a copy of the
original callable), and if that re-JIT fails it panics rather than
returning an error. -/
theorem clone_rejits_and_panics_on_failure (env : ExtEnv) (self : BpfJit) :
    (self.cloneJit env).1 = [Event.jitGenerate] ∧
    (∀ h, (self.cloneJit env).2 = CloneResult.ok h →
      h.prog = self.prog ∧ h.cb = env.jitResult self.prog) ∧
    (env.jitResult self.prog = none →
      (self.cloneJit env).2 = CloneResult.panic "could not JIT cBPF expression") := by
  refine ⟨?_, fun h hok => ?_, fun hj => ?_⟩
  · unfold BpfJit.cloneJit
    cases env.jitResult self.prog <;> rfl
  · obtain ⟨f, hf, hh⟩ := (cloneJit_ok_iff env self h).mp hok
    rw [hh, hf]; exact ⟨rfl, rfl⟩
  · unfold BpfJit.cloneJit
    rw [hj]

/-- C5 witness: cloning under an environment whose JIT always fails
panics with the source's message. -/
theorem clone_rejits_and_panics_on_failure_witness :
    (hOk.cloneJit envNoJit).2 =
      CloneResult.panic "could not JIT cBPF expression" :=
  (clone_rejits_and_panics_on_failure envNoJit hOk).2.2 rfl

/-- C6: dropping a handle calls the JIT engine's free function exactly
once when a callable was obtained and not at all otherwise; no drop trace
ever contains more than one free. -/
theorem drop_frees_exactly_once (self : BpfJit) :
    (self.cb.isSome = true → self.dropTrace = [Event.jitFree]) ∧
    (self.cb = none → self.dropTrace = []) ∧
    self.dropTrace.count Event.jitFree ≤ 1 := by
  unfold BpfJit.dropTrace
  cases self.cb <;> simp

/-- C6 witness: dropping the fully initialized handle frees once;
dropping the callable-less handle frees nothing. -/
theorem drop_frees_exactly_once_witness :
    hOk.dropTrace = [Event.jitFree] ∧ hNoCb.dropTrace = [] :=
  ⟨(drop_frees_exactly_once hOk).1 rfl, (drop_frees_exactly_once hNoCb).2.1 rfl⟩

/-- C7: every construction opens its dead capture context with snaplen
65535 and the requested link type (1 for Ethernet, 12 for raw IP),
compiles with `optimize = 1` and netmask `0xffffffff`, closes the context
immediately after the compile call on success and failure paths, and
whenever the lock is not poisoned the open actually happens. -/
theorem constructors_pcap_parameters (env : ExtEnv) (filter : String) :
    opensWith 1 65535 ((new_ethernet env filter).1) = true ∧
    opensWith 12 65535 ((new_ip env filter).1) = true ∧
    compilesOptimized ((new_ethernet env filter).1) = true ∧
    compilesOptimized ((new_ip env filter).1) = true ∧
    closeImmediatelyAfterCompile ((new_ethernet env filter).1) = true ∧
    closeImmediatelyAfterCompile ((new_ip env filter).1) = true ∧
    (env.lockPoisoned = false →
      ((new_ethernet env filter).1).contains (Event.pcapOpenDead 1 65535) = true ∧
      ((new_ip env filter).1).contains (Event.pcapOpenDead 12 65535) = true) := by
  refine ⟨?_, ?_, ?_, ?_, ?_, ?_, fun hp => ⟨?_, ?_⟩⟩
  · rcases construct_trace_cases env 1 filter with ⟨-, h⟩ | ⟨-, h | h | h⟩ <;>
      rw [new_ethernet, h] <;> decide
  · rcases construct_trace_cases env 12 filter with ⟨-, h⟩ | ⟨-, h | h | h⟩ <;>
      rw [new_ip, h] <;> decide
  · rcases construct_trace_cases env 1 filter with ⟨-, h⟩ | ⟨-, h | h | h⟩ <;>
      rw [new_ethernet, h] <;> decide
  · rcases construct_trace_cases env 12 filter with ⟨-, h⟩ | ⟨-, h | h | h⟩ <;>
      rw [new_ip, h] <;> decide
  · rcases construct_trace_cases env 1 filter with ⟨-, h⟩ | ⟨-, h | h | h⟩ <;>
      rw [new_ethernet, h] <;> decide
  · rcases construct_trace_cases env 12 filter with ⟨-, h⟩ | ⟨-, h | h | h⟩ <;>
      rw [new_ip, h] <;> decide
  · rcases construct_trace_cases env 1 filter with ⟨hp2, -⟩ | ⟨-, h | h | h⟩
    · rw [hp] at hp2; exact absurd hp2 (by decide)
    all_goals rw [new_ethernet, h]; decide
  · rcases construct_trace_cases env 12 filter with ⟨hp2, -⟩ | ⟨-, h | h | h⟩
    · rw [hp] at hp2; exact absurd hp2 (by decide)
    all_goals rw [new_ip, h]; decide

/-- C7 witness: the pcap parameters at `envOk`, and the dead contexts are
actually opened since the lock is not poisoned. -/
theorem constructors_pcap_parameters_witness :
    ((new_ethernet envOk "tcp").1).contains (Event.pcapOpenDead 1 65535) = true ∧
    ((new_ip envOk "tcp").1).contains (Event.pcapOpenDead 12 65535) = true :=
  (constructors_pcap_parameters envOk "tcp").2.2.2.2.2.2 rfl

/-- C9: the default constructor `new` is definitionally `new_ethernet`:
same trace and same result for every environment and filter text. -/
theorem new_eq_new_ethernet (env : ExtEnv) (filter : String) :
    new env filter = new_ethernet env filter := rfl

/-- C10: the `unwrap` inside `matches` never panics on a handle obtained
from a successful `new`, `new_ethernet`, `new_ip` or `clone`: on all such
handles `matchesPacket` returns `some`. -/
theorem matches_never_panics_on_constructed_handles (env : ExtEnv)
    (filter : String) (data : List Nat) (self : BpfJit) :
    (∀ h, (new env filter).2 = Except.ok h →
      (h.matchesPacket data).isSome = true) ∧
    (∀ h, (new_ethernet env filter).2 = Except.ok h →
      (h.matchesPacket data).isSome = true) ∧
    (∀ h, (new_ip env filter).2 = Except.ok h →
      (h.matchesPacket data).isSome = true) ∧
    (∀ h, (self.cloneJit env).2 = CloneResult.ok h →
      (h.matchesPacket data).isSome = true) := by
  refine ⟨fun h hok => ?_, fun h hok => ?_, fun h hok => ?_, fun h hok => ?_⟩
  · obtain ⟨-, -, -, f, -, hh⟩ := (construct_ok_iff env 1 filter h).mp hok
    rw [hh]; rfl
  · obtain ⟨-, -, -, f, -, hh⟩ := (construct_ok_iff env 1 filter h).mp hok
    rw [hh]; rfl
  · obtain ⟨-, -, -, f, -, hh⟩ := (construct_ok_iff env 12 filter h).mp hok
    rw [hh]; rfl
  · obtain ⟨f, -, hh⟩ := (cloneJit_ok_iff env self h).mp hok
    rw [hh]; rfl

/-- C10 witness: `matches` is defined (`some`) on the handle built by the
successful construction in `envOk`. -/
theorem matches_never_panics_on_constructed_handles_witness :
    (hOk.matchesPacket [1, 2, 3]).isSome = true :=
  (matches_never_panics_on_constructed_handles envOk "tcp" [1, 2, 3] hOk).2.1
    hOk rfl

end BpfjitSys
